import Mathlib

/-
Verification of the Mython statement evaluator, a shallow embedding of
src/mython/statement.h and src/mython/statement.cpp.

Modelling decisions:
* An `ObjectHolder` is an optional heap address: `none` is the empty handle
  (`ObjectHolder::None`), `some a` points at the object stored at address
  `a` of the heap.  The heap is a list of objects; `ObjectHolder::Own`
  appends a fresh cell, so handle identity (needed for the freshness of
  the Bool produced by `Or` / `And`) is address identity.
* Numbers are unbounded `Int`.  The C++ `int` can overflow, but signed
  overflow is undefined behaviour in the source language, so the
  in-range behaviour is what is modelled.
* Non-local control flow (`Return` throws an `ObjectHolder`, runtime
  errors throw `std::runtime_error`) becomes the result type `Res`:
  `ok`, `ret` (a thrown holder), `err msg`.  Side effects performed
  before a throw survive it, therefore every execution returns the
  closure and state it reached, whatever the result kind.
* The interpreter is indexed by fuel; `Res.oot` reports exhausted fuel.
  It is a modelling artefact with no C++ counterpart and every node
  propagates it untouched.
* `ValueStatement` (NumericConst / StringConst / BoolConst) returns
  `ObjectHolder::Share(value_)`, a handle to a value owned by the node;
  likewise `NewInstance` owns its `class_instance_` member.  Such nodes
  are embedded as carrying the address of their node-owned object, which
  the initial heap must contain.
* `runtime.h` / `runtime.cpp` are not part of the sources; the runtime
  operations used by the statements (`IsTrue`, method resolution,
  `ClassInstance::Call`, the printing protocol) are modelled from the
  specification and marked as such.
-/

namespace Mython

/-- A handle over a heap object; `none` is the empty handle (`None`). -/
abbrev ObjectHolder := Option Nat

mutual

/-- Statement nodes of the evaluator, one constructor per concrete class of
statement.h that the claims touch.  `const` embeds `ValueStatement`
(a shared handle to the node-owned value at the given address);
`newInstance` carries the address of the node-owned `class_instance_`
member. -/
inductive Stmt where
  | const (a : Nat)
  | noneStmt
  | variableValue (name : String) (dotted : List String)
  | assignment (var : String) (rv : Stmt)
  | fieldAssignment (objName : String) (objDotted : List String) (field : String) (rv : Stmt)
  | print (args : List Stmt)
  | methodCall (object : Stmt) (method : String) (args : List Stmt)
  | newInstance (selfAddr : Nat) (args : List Stmt)
  | mult (lhs rhs : Stmt)
  | div (lhs rhs : Stmt)
  | or (lhs rhs : Stmt)
  | and (lhs rhs : Stmt)
  | not (arg : Stmt)
  | compound (stmts : List Stmt)
  | methodBody (body : Stmt)
  | ret (stmt : Stmt)
  | ifElse (condition thenBody : Stmt) (elseBody : Option Stmt)

/-- Modelled from the spec: `runtime::Class` (runtime.h is not among the
sources) — a name, a method table and an optional parent. -/
inductive ClsDesc where
  | mk (name : String) (methods : List MethodRec) (parent : Option ClsDesc)

/-- Modelled from the spec: a method descriptor — name, formal parameter
names (excluding `self`), body. -/
inductive MethodRec where
  | mk (name : String) (params : List String) (body : Stmt)

end

def ClsDesc.nameOf : ClsDesc → String
  | .mk n _ _ => n

def MethodRec.nameOf : MethodRec → String
  | .mk n _ _ => n

def MethodRec.paramsOf : MethodRec → List String
  | .mk _ p _ => p

def MethodRec.bodyOf : MethodRec → Stmt
  | .mk _ _ b => b

/-- Heap objects: the value kinds of the runtime object model. -/
inductive Obj where
  | num (n : Int)
  | str (s : String)
  | bool (b : Bool)
  | cls (c : ClsDesc)
  | inst (c : ClsDesc) (fields : List (String × ObjectHolder))

/-- A scope (`runtime::Closure`): a flat map from names to handles. -/
abbrev Closure := List (String × ObjectHolder)

/-- Interpreter state: the object heap and the output sink. -/
structure St where
  heap : List Obj
  out : String

/-- Result of executing a statement: a normal result, a thrown
`ObjectHolder` (the non-local transfer of `Return`), a runtime error with
its message, or exhausted fuel (modelling artefact). -/
inductive Res where
  | ok (h : ObjectHolder)
  | ret (h : ObjectHolder)
  | err (msg : String)
  | oot

/-- Map lookup for the assoc-list representation of `std::unordered_map`. -/
def lookupStr {α : Type} : List (String × α) → String → Option α
  | [], _ => none
  | (k, v) :: rest, key => if k == key then some v else lookupStr rest key

/-- Map insert-or-assign for the assoc-list representation. -/
def insertStr {α : Type} : List (String × α) → String → α → List (String × α)
  | [], key, v => [(key, v)]
  | (k, w) :: rest, key, v =>
    if k == key then (key, v) :: rest else (k, w) :: insertStr rest key v

/-- Dereference a handle as a Number (`TryAs<runtime::Number>`). -/
def getNum (heap : List Obj) : ObjectHolder → Option Int
  | some a =>
    match heap[a]? with
    | some (.num n) => some n
    | _ => none
  | none => none

/-- Dereference a handle as a ClassInstance (`TryAs<runtime::ClassInstance>`). -/
def getInst (heap : List Obj) : ObjectHolder → Option (ClsDesc × List (String × ObjectHolder))
  | some a =>
    match heap[a]? with
    | some (.inst c f) => some (c, f)
    | _ => none
  | none => none

/-- Modelled from the spec: truthiness of one value (§4.1; the runtime
sources are absent).  None is false, a Bool is itself, a Number is
truthy iff nonzero, a String iff nonempty, classes and instances are
truthy. -/
def isTrueObj : Obj → Bool
  | .num n => n != 0
  | .str s => s != ""
  | .bool b => b
  | .cls _ => true
  | .inst _ _ => true

/-- Modelled from the spec: `runtime::IsTrue` on a handle; the empty
handle is falsy. -/
def IsTrue (heap : List Obj) : ObjectHolder → Bool
  | none => false
  | some a =>
    match heap[a]? with
    | some o => isTrueObj o
    | none => false

/-- Modelled from the spec: method resolution (§4.2) — walk from the class
through the parent chain; the first method whose name matches and whose
parameter count equals the arity wins. -/
def methodLookup : ClsDesc → String → Nat → Option MethodRec
  | .mk _ methods parent, name, arity =>
    match methods.find? (fun m => m.nameOf == name && m.paramsOf.length == arity) with
    | some m => some m
    | none =>
      match parent with
      | some p => methodLookup p name arity
      | none => none

/-- Modelled from the spec: `HasMethod` — the same search, as a Boolean. -/
def hasMethod (c : ClsDesc) (name : String) (arity : Nat) : Bool :=
  (methodLookup c name arity).isSome

/-- The attribute-hop loop of `VariableValue::Execute` (statement.cpp
48-69): for each id, when the current value is a ClassInstance the field
is read from its map with `.at` (absent field throws); when it is not an
instance the source has no else branch, so the hop is skipped and the
current value kept. -/
def execDotted (heap : List Obj) : List String → ObjectHolder → Except String ObjectHolder
  | [], h => .ok h
  | id :: rest, h =>
    match h with
    | some a =>
      match heap[a]? with
      | some (.inst _ fields) =>
        match lookupStr fields id with
        | some h2 => execDotted heap rest h2
        | none => .error "out_of_range"
      | _ => execDotted heap rest h
    | none => execDotted heap rest h

/-- `VariableValue::Execute`: look the head name up in the closure
(absence is a runtime error), then walk the dotted ids. -/
def execVariableValue (c : Closure) (heap : List Obj) (name : String)
    (dotted : List String) : Except String ObjectHolder :=
  match lookupStr c name with
  | some h => execDotted heap dotted h
  | none => .error "Failed to VariableValue::Execute!"

/-- The type of the statement-execution function at one fuel level. -/
abbrev ExecT := Stmt → Closure → St → Res × Closure × St

/-- Evaluate an argument list left to right, collecting the handles;
the first non-`ok` outcome is propagated. -/
def execArgsWith (e : ExecT) :
    List Stmt → Closure → St → Except Res (List ObjectHolder) × Closure × St
  | [], c, st => (.ok [], c, st)
  | s :: rest, c, st =>
    match e s c st with
    | (.ok h, c1, st1) =>
      match execArgsWith e rest c1 st1 with
      | (.ok hs, c2, st2) => (.ok (h :: hs), c2, st2)
      | (.error r, c2, st2) => (.error r, c2, st2)
    | (r, c1, st1) => (.error r, c1, st1)

/-- `Compound::Execute`: run each child in order discarding its value,
propagate any throw, finally yield the empty handle. -/
def execCompoundWith (e : ExecT) : List Stmt → Closure → St → Res × Closure × St
  | [], c, st => (.ok none, c, st)
  | s :: rest, c, st =>
    match e s c st with
    | (.ok _, c1, st1) => execCompoundWith e rest c1 st1
    | (r, c1, st1) => (r, c1, st1)

/-- Modelled from the spec: `ClassInstance::Call` (§4.2; runtime.cpp is
not among the sources).  Resolve (name, arity) along the parent chain —
failure is a runtime error; build a fresh scope binding `self` and the
parameters positionally; execute the stored body; return whatever it
yields. -/
def callMethodWith (e : ExecT) (selfH : ObjectHolder) (cd : ClsDesc)
    (name : String) (argVals : List ObjectHolder) (st : St) : Res × St :=
  match methodLookup cd name argVals.length with
  | some m =>
    let clo := (m.paramsOf.zip argVals).foldl
      (fun acc pv => insertStr acc pv.1 pv.2) (insertStr [] "self" selfH)
    let r := e m.bodyOf clo st
    (r.1, r.2.2)
  | none => (.err "Call: method not found", st)

/-- Modelled from the spec: the printing protocol of §4.1 (the runtime
sources are absent).  Numbers print in decimal, strings raw, Bools as
True / False, a class as `Class name`; an instance prints through its
zero-argument `__str__` when the class has one, otherwise as
`<ClassInstance of name>` (the spec's preferred deterministic form). -/
def printAddrWith (e : ExecT) : Nat → Nat → St → Res × St
  | 0, _, st => (.oot, st)
  | n + 1, a, st =>
    match st.heap[a]? with
    | some (.num k) => (.ok none, { st with out := st.out ++ toString k })
    | some (.str s) => (.ok none, { st with out := st.out ++ s })
    | some (.bool b) => (.ok none, { st with out := st.out ++ (if b then "True" else "False") })
    | some (.cls cd) => (.ok none, { st with out := st.out ++ "Class " ++ cd.nameOf })
    | some (.inst cd _) =>
      if hasMethod cd "__str__" 0 then
        match callMethodWith e (some a) cd "__str__" [] st with
        | (.ok h, st1) =>
          match h with
          | some a2 => printAddrWith e n a2 st1
          | none => (.ok none, { st1 with out := st1.out ++ "None" })
        | (r, st1) => (r, st1)
      else (.ok none, { st with out := st.out ++ "<ClassInstance of " ++ cd.nameOf ++ ">" })
    | none => (.err "dangling handle", st)

/-- The loop of `Print::Execute` (statement.cpp 83-106): for every
argument after the first a single space is written to the sink, then the
argument is evaluated, then its representation (or `None` for the empty
handle) is written — the output streams as the loop goes. -/
def execPrintArgsWith (e : ExecT) (pa : Nat → St → Res × St) :
    List Stmt → Bool → Closure → St → Res × Closure × St
  | [], _, c, st => (.ok none, c, st)
  | arg :: rest, isFirst, c, st =>
    let st0 := match isFirst with
      | true => st
      | false => { st with out := st.out ++ " " }
    match e arg c st0 with
    | (.ok h, c1, st1) =>
      match h with
      | some a =>
        match pa a st1 with
        | (.ok _, st2) => execPrintArgsWith e pa rest false c1 st2
        | (r, st2) => (r, c1, st2)
      | none => execPrintArgsWith e pa rest false c1 { st1 with out := st1.out ++ "None" }
    | (r, c1, st1) => (r, c1, st1)

/-- One evaluation layer: the dispatch of `Execute` over every statement
kind, with `e` the evaluator used for sub-statements and `n` the budget
of the printing protocol.  Each branch mirrors the corresponding
`Execute` of statement.cpp. -/
def execStep (n : Nat) (e : ExecT) : ExecT := fun stmt c st =>
  match stmt with
  | .const a => (.ok (some a), c, st)
  | .noneStmt => (.ok none, c, st)
  | .variableValue name dotted =>
    match execVariableValue c st.heap name dotted with
    | .ok h => (.ok h, c, st)
    | .error m => (.err m, c, st)
  | .assignment v rv =>
    match e rv c st with
    | (.ok h, c1, st1) => (.ok h, insertStr c1 v h, st1)
    | (r, c1, st1) => (r, c1, st1)
  | .fieldAssignment objName objDotted fld rv =>
    match execVariableValue c st.heap objName objDotted with
    | .ok h =>
      match getInst st.heap h with
      | some _ =>
        match e rv c st with
        | (.ok v, c1, st1) =>
          match h with
          | some a =>
            match st1.heap[a]? with
            | some (.inst cd2 fields2) =>
              (.ok v, c1, { st1 with heap := st1.heap.set a (.inst cd2 (insertStr fields2 fld v)) })
            | _ => (.err "dangling handle", c1, st1)
          | none => (.err "dangling handle", c1, st1)
        | (r, c1, st1) => (r, c1, st1)
      | none => (.err "Failed to FieldAssignment::Execute ", c, st)
    | .error m => (.err m, c, st)
  | .print args =>
    match execPrintArgsWith e (printAddrWith e n) args true c st with
    | (.ok _, c1, st1) => (.ok none, c1, { st1 with out := st1.out ++ "\n" })
    | (r, c1, st1) => (r, c1, st1)
  | .methodCall obj m args =>
    match e obj c st with
    | (.ok h, c1, st1) =>
      match getInst st1.heap h with
      | some (cd, _) =>
        match execArgsWith e args c1 st1 with
        | (.ok vs, c2, st2) =>
          let r := callMethodWith e h cd m vs st2
          (r.1, c2, r.2)
        | (.error r, c2, st2) => (r, c2, st2)
      | none => (.ok none, c1, st1)
    | (r, c1, st1) => (r, c1, st1)
  | .newInstance selfAddr args =>
    match st.heap[selfAddr]? with
    | some (.inst cd _) =>
      if hasMethod cd "__init__" args.length then
        match execArgsWith e args c st with
        | (.ok vs, c1, st1) =>
          match callMethodWith e (some selfAddr) cd "__init__" vs st1 with
          | (.ok _, st2) => (.ok (some selfAddr), c1, st2)
          | (r, st2) => (r, c1, st2)
        | (.error r, c1, st1) => (r, c1, st1)
      else (.ok (some selfAddr), c, st)
    | _ => (.err "ill-formed NewInstance node", c, st)
  | .mult l r =>
    match e l c st with
    | (.ok h1, c1, st1) =>
      match e r c1 st1 with
      | (.ok h2, c2, st2) =>
        match getNum st2.heap h1, getNum st2.heap h2 with
        | some n1, some n2 =>
          (.ok (some st2.heap.length), c2, { st2 with heap := st2.heap ++ [.num (n1 * n2)] })
        | _, _ => (.err "Failed to Mult::Execute ", c2, st2)
      | (r2, c2, st2) => (r2, c2, st2)
    | (r1, c1, st1) => (r1, c1, st1)
  | .div l r =>
    match e l c st with
    | (.ok h1, c1, st1) =>
      match e r c1 st1 with
      | (.ok h2, c2, st2) =>
        match getNum st2.heap h1, getNum st2.heap h2 with
        | some n1, some n2 =>
          if n2 != 0 then
            (.ok (some st2.heap.length), c2,
              { st2 with heap := st2.heap ++ [.num (Int.tdiv n1 n2)] })
          else (.err "Сannot be divided by 0 ", c2, st2)
        | _, _ => (.err "Failed to Div::Execute ", c2, st2)
      | (r2, c2, st2) => (r2, c2, st2)
    | (r1, c1, st1) => (r1, c1, st1)
  | .or l r =>
    match e l c st with
    | (.ok h1, c1, st1) =>
      if IsTrue st1.heap h1 then
        (.ok (some st1.heap.length), c1, { st1 with heap := st1.heap ++ [.bool true] })
      else
        match e r c1 st1 with
        | (.ok h2, c2, st2) =>
          if IsTrue st2.heap h2 then
            (.ok (some st2.heap.length), c2, { st2 with heap := st2.heap ++ [.bool true] })
          else
            (.ok (some st2.heap.length), c2, { st2 with heap := st2.heap ++ [.bool false] })
        | (r2, c2, st2) => (r2, c2, st2)
    | (r1, c1, st1) => (r1, c1, st1)
  | .and l r =>
    match e l c st with
    | (.ok h1, c1, st1) =>
      if IsTrue st1.heap h1 then
        match e r c1 st1 with
        | (.ok h2, c2, st2) =>
          if IsTrue st2.heap h2 then
            (.ok (some st2.heap.length), c2, { st2 with heap := st2.heap ++ [.bool true] })
          else
            (.ok (some st2.heap.length), c2, { st2 with heap := st2.heap ++ [.bool false] })
        | (r2, c2, st2) => (r2, c2, st2)
      else
        (.ok (some st1.heap.length), c1, { st1 with heap := st1.heap ++ [.bool false] })
    | (r1, c1, st1) => (r1, c1, st1)
  | .not a =>
    match e a c st with
    | (.ok h, c1, st1) =>
      (.ok (some st1.heap.length), c1, { st1 with heap := st1.heap ++ [.bool (!IsTrue st1.heap h)] })
    | (r, c1, st1) => (r, c1, st1)
  | .compound stmts => execCompoundWith e stmts c st
  | .methodBody body =>
    match e body c st with
    | (.ok h, c1, st1) => (.ok h, c1, st1)
    | (.ret h, c1, st1) => (.ok h, c1, st1)
    | (.err _, c1, st1) => (.err "MethodBody::Catched undefined object", c1, st1)
    | (.oot, c1, st1) => (.oot, c1, st1)
  | .ret s =>
    match e s c st with
    | (.ok h, c1, st1) => (.ret h, c1, st1)
    | (r, c1, st1) => (r, c1, st1)
  | .ifElse cond tB eB =>
    match e cond c st with
    | (.ok h, c1, st1) =>
      if IsTrue st1.heap h then e tB c1 st1
      else
        match eB with
        | some el => e el c1 st1
        | none => (.ok none, c1, st1)
    | (r, c1, st1) => (r, c1, st1)

/-- The fuel-indexed evaluator: `exec (n+1)` runs one `execStep` layer
whose sub-statements are evaluated by `exec n`. -/
def exec : Nat → ExecT
  | 0 => fun _ c st => (.oot, c, st)
  | n + 1 => execStep n (exec n)

/-- A handle that points into the heap (or is empty); every handle a real
execution produces satisfies this. -/
def holderValid (heap : List Obj) : ObjectHolder → Prop
  | none => True
  | some a => a < heap.length

end Mython

namespace Mython

/-- A truthy handle points at a live heap cell, hence at an address below
the heap length. -/
theorem isTrue_addr_lt (heap : List Obj) (h : ObjectHolder) (ht : IsTrue heap h = true) :
    ∃ a, h = some a ∧ a < heap.length := by
  cases h with
  | none => simp [IsTrue] at ht
  | some a =>
    refine ⟨a, rfl, ?_⟩
    by_contra hge
    have hnone : heap[a]? = none := List.getElem?_eq_none (by omega)
    simp [IsTrue, hnone] at ht

/-- A freshly allocated address differs from every handle that was valid
before the allocation. -/
theorem valid_ne_fresh (heap : List Obj) (h : ObjectHolder) (hv : holderValid heap h) :
    some heap.length ≠ h := by
  cases h with
  | none => simp
  | some a =>
    simp only [holderValid] at hv
    intro hcontra
    have h2 : heap.length = a := Option.some.inj hcontra
    omega

/-- Claim C4: once both operands of `Div` have evaluated (left then
right), the result is a fresh Number holding the truncating
(toward-zero) quotient when both values are Numbers and the right one is
nonzero, and a runtime error is raised if and only if an operand is not
a Number or the right operand is zero. -/
theorem div_truncates_and_error_iff (fuel : Nat) (l r : Stmt) (c c1 c2 : Closure) (st st1 st2 : St)
    (h1 h2 : ObjectHolder)
    (hl : exec fuel l c st = (.ok h1, c1, st1))
    (hr : exec fuel r c1 st1 = (.ok h2, c2, st2)) :
    (∀ n1 n2, getNum st2.heap h1 = some n1 → getNum st2.heap h2 = some n2 → n2 ≠ 0 →
      exec (fuel+1) (.div l r) c st =
        (.ok (some st2.heap.length), c2, { st2 with heap := st2.heap ++ [.num (Int.tdiv n1 n2)] }))
    ∧ ((∃ msg, exec (fuel+1) (.div l r) c st = (.err msg, c2, st2)) ↔
        (getNum st2.heap h1 = none ∨ getNum st2.heap h2 = none ∨ getNum st2.heap h2 = some 0)) := by
  have key : exec (fuel+1) (.div l r) c st = execStep fuel (exec fuel) (.div l r) c st := rfl
  rw [key]
  simp only [execStep, hl, hr]
  constructor
  · intro n1 n2 hg1 hg2 hn2
    rw [hg1, hg2]
    simp [hn2]
  · cases hg1 : getNum st2.heap h1 with
    | none => simp
    | some n1 =>
      cases hg2 : getNum st2.heap h2 with
      | none => simp
      | some n2 =>
        by_cases hz : n2 = 0
        · subst hz; simp
        · simp [hz]

/-- Claim C9: for every Number `n` and nonzero Number `m`, evaluating
`Div(Mult(n, m), m)` yields a Number equal to `n`. -/
theorem mult_div_roundtrip (n m : Int) (hm : m ≠ 0) :
    exec 3 (.div (.mult (.const 0) (.const 1)) (.const 1)) [] ⟨[.num n, .num m], ""⟩ =
      (.ok (some 3), [], ⟨[.num n, .num m, .num (n * m), .num n], ""⟩) := by
  have key : exec 3 (.div (.mult (.const 0) (.const 1)) (.const 1)) [] ⟨[.num n, .num m], ""⟩
      = execStep 2 (exec 2) (.div (.mult (.const 0) (.const 1)) (.const 1)) [] ⟨[.num n, .num m], ""⟩ := rfl
  rw [key]
  have hmul : exec 2 (.mult (.const 0) (.const 1)) [] ⟨[.num n, .num m], ""⟩ =
      (.ok (some 2), [], ⟨[.num n, .num m, .num (n * m)], ""⟩) := rfl
  simp only [execStep, hmul]
  have hc : exec 2 (.const 1) [] ⟨[.num n, .num m, .num (n * m)], ""⟩ =
      (.ok (some 1), [], ⟨[.num n, .num m, .num (n * m)], ""⟩) := rfl
  simp only [hc]
  have hg1 : getNum [Obj.num n, Obj.num m, Obj.num (n * m)] (some 2) = some (n * m) := rfl
  have hg2 : getNum [Obj.num n, Obj.num m, Obj.num (n * m)] (some 1) = some m := rfl
  simp only [hg1, hg2]
  simp [hm, Int.mul_tdiv_cancel n hm]

/-- Claim C1 (failing input): a `MethodBody` whose body completes
normally yields the body own result — here the Number 5 — not the empty
handle that the claim and the header comment of statement.h promise. -/
theorem methodBody_normal_completion_returns_body_result :
    exec 2 (.methodBody (.const 0)) [] ⟨[.num 5], ""⟩ = (.ok (some 0), [], ⟨[.num 5], ""⟩) := rfl

/-- Claim C2 (counterexample): a dotted hop on a value that is not a
ClassInstance (here the Number 5) is silently skipped by
`VariableValue::Execute` — the original handle is returned and no
runtime error is raised, contradicting the claim. -/
theorem variableValue_non_instance_hop_no_error :
    exec 1 (.variableValue "x" ["y"]) [("x", some 0)] ⟨[.num 5], ""⟩ =
      (.ok (some 0), [("x", some 0)], ⟨[.num 5], ""⟩)
    ∧ ∀ msg (cx : Closure) (stx : St),
        exec 1 (.variableValue "x" ["y"]) [("x", some 0)] ⟨[.num 5], ""⟩ ≠ (.err msg, cx, stx) := by
  refine ⟨rfl, ?_⟩
  intro msg cx stx hcontra
  have heq : exec 1 (.variableValue "x" ["y"]) [("x", some 0)] ⟨[.num 5], ""⟩ =
      (.ok (some 0), [("x", some 0)], ⟨[.num 5], ""⟩) := rfl
  rw [heq] at hcontra
  exact Res.noConfusion (congrArg Prod.fst hcontra)

/-- Claim C3 (counterexample): a division-by-zero failure inside a
`MethodBody` does not propagate with its original message — the
catch-all replaces it with `MethodBody::Catched undefined object`. -/
theorem methodBody_replaces_error_message :
    exec 3 (.methodBody (.div (.const 0) (.const 1))) [] ⟨[.num 1, .num 0], ""⟩ =
      (.err "MethodBody::Catched undefined object", [], ⟨[.num 1, .num 0], ""⟩)
    ∧ "MethodBody::Catched undefined object" ≠ "Сannot be divided by 0 " := by
  exact ⟨rfl, by decide⟩

/-- Claim C8 (counterexample): `Print` streams — the first argument
representation and the separator are already on the sink when the
second argument (itself a printing statement) is evaluated, so the
output interleaves as `1 2\nNone\n`, not as the claim order
`2\n1 None\n`. -/
theorem print_streams_interleaved :
    exec 3 (.print [.const 0, .print [.const 1]]) [] ⟨[.num 1, .num 2], ""⟩ =
      (.ok none, [], ⟨[.num 1, .num 2], "1 2\nNone\n"⟩)
    ∧ "1 2\nNone\n" ≠ "2\n1 None\n" := by
  exact ⟨rfl, by decide⟩

/-- Claim C10 (counterexample): when the right-hand side itself mutates
the scope and then fails, `Assignment` propagates the failure but the
scope is not unchanged — the binding the right-hand side created
survives. -/
theorem assignment_scope_changed_on_error :
    exec 4 (.assignment "x" (.compound [.assignment "x" (.const 0), .div (.const 1) (.const 2)]))
        [] ⟨[.num 42, .num 1, .num 0], ""⟩ =
      (.err "Сannot be divided by 0 ", [("x", some 0)], ⟨[.num 42, .num 1, .num 0], ""⟩)
    ∧ ([("x", some 0)] : Closure) ≠ [] := by
  exact ⟨rfl, by decide⟩

/-- Claim C5: `Or` and `And` short-circuit — when the left operand
decides the outcome the right operand is never evaluated (the result
does not depend on it) — and in every case the result is a freshly
allocated Bool whose address differs from any valid operand handle. -/
theorem or_and_short_circuit_fresh_bool (fuel : Nat) (a b : Stmt) (c c1 c2 : Closure) (st st1 st2 : St)
    (ha hb : ObjectHolder)
    (hea : exec fuel a c st = (.ok ha, c1, st1)) :
    (IsTrue st1.heap ha = true →
      (∀ b' : Stmt, exec (fuel+1) (.or a b') c st =
        (.ok (some st1.heap.length), c1, { st1 with heap := st1.heap ++ [.bool true] }))
      ∧ some st1.heap.length ≠ ha)
    ∧ (IsTrue st1.heap ha = false →
      exec fuel b c1 st1 = (.ok hb, c2, st2) →
      exec (fuel+1) (.or a b) c st =
        (.ok (some st2.heap.length), c2,
          { st2 with heap := st2.heap ++ [.bool (IsTrue st2.heap hb)] })
      ∧ (holderValid st2.heap hb → some st2.heap.length ≠ hb))
    ∧ (IsTrue st1.heap ha = false →
      (∀ b' : Stmt, exec (fuel+1) (.and a b') c st =
        (.ok (some st1.heap.length), c1, { st1 with heap := st1.heap ++ [.bool false] }))
      ∧ (holderValid st1.heap ha → some st1.heap.length ≠ ha))
    ∧ (IsTrue st1.heap ha = true →
      exec fuel b c1 st1 = (.ok hb, c2, st2) →
      exec (fuel+1) (.and a b) c st =
        (.ok (some st2.heap.length), c2,
          { st2 with heap := st2.heap ++ [.bool (IsTrue st2.heap hb)] })
      ∧ (holderValid st2.heap hb → some st2.heap.length ≠ hb)) := by
  refine ⟨?_, ?_, ?_, ?_⟩
  · intro ht
    constructor
    · intro b'
      have key : exec (fuel+1) (.or a b') c st = execStep fuel (exec fuel) (.or a b') c st := rfl
      rw [key]
      simp only [execStep, hea, ht]
      simp
    · obtain ⟨ad, had, hlt⟩ := isTrue_addr_lt st1.heap ha ht
      rw [had]
      intro hcontra
      have h2 := Option.some.inj hcontra
      omega
  · intro ht heb
    constructor
    · have key : exec (fuel+1) (.or a b) c st = execStep fuel (exec fuel) (.or a b) c st := rfl
      rw [key]
      simp only [execStep, hea, ht, heb]
      cases htb : IsTrue st2.heap hb <;> simp
    · intro hv
      exact valid_ne_fresh st2.heap hb hv
  · intro ht
    constructor
    · intro b'
      have key : exec (fuel+1) (.and a b') c st = execStep fuel (exec fuel) (.and a b') c st := rfl
      rw [key]
      simp only [execStep, hea, ht]
      simp
    · intro hv
      exact valid_ne_fresh st1.heap ha hv
  · intro ht heb
    constructor
    · have key : exec (fuel+1) (.and a b) c st = execStep fuel (exec fuel) (.and a b) c st := rfl
      rw [key]
      simp only [execStep, hea, ht, heb]
      cases htb : IsTrue st2.heap hb <;> simp
    · intro hv
      exact valid_ne_fresh st2.heap hb hv

/-- Claim C7: `MethodCall` evaluates the receiver first; when it is not
a ClassInstance the empty handle is returned without error and without
evaluating the arguments; when it is an instance the arguments are
evaluated in order and the call is dispatched, yielding its result. -/
theorem methodCall_dispatch_or_none (fuel : Nat) (obj : Stmt) (m : String) (c c1 : Closure)
    (st st1 : St) (h : ObjectHolder)
    (hobj : exec fuel obj c st = (.ok h, c1, st1)) :
    (getInst st1.heap h = none →
      ∀ args : List Stmt, exec (fuel+1) (.methodCall obj m args) c st = (.ok none, c1, st1))
    ∧ (∀ cd flds, getInst st1.heap h = some (cd, flds) →
      ∀ (args : List Stmt) vs (c2 : Closure) (st2 : St),
        execArgsWith (exec fuel) args c1 st1 = (.ok vs, c2, st2) →
        exec (fuel+1) (.methodCall obj m args) c st =
          ((callMethodWith (exec fuel) h cd m vs st2).1, c2,
            (callMethodWith (exec fuel) h cd m vs st2).2)) := by
  constructor
  · intro hni args
    have key : exec (fuel+1) (.methodCall obj m args) c st
        = execStep fuel (exec fuel) (.methodCall obj m args) c st := rfl
    rw [key]
    simp only [execStep, hobj, hni]
  · intro cd flds hi args vs c2 st2 hargs
    have key : exec (fuel+1) (.methodCall obj m args) c st
        = execStep fuel (exec fuel) (.methodCall obj m args) c st := rfl
    rw [key]
    simp only [execStep, hobj, hi, hargs]

/-- Claim C6 (amended): each execution of a `NewInstance` node returns a
shared handle to the single node-owned instance; `__init__` is invoked
with the evaluated arguments exactly when the class chain defines it at
the supplied arity, and the arguments stay unevaluated otherwise. -/
theorem newInstance_init_dispatch (fuel : Nat) (selfAddr : Nat) (args : List Stmt)
    (c : Closure) (st : St) (cd : ClsDesc) (flds : List (String × ObjectHolder))
    (hcell : st.heap[selfAddr]? = some (.inst cd flds)) :
    (hasMethod cd "__init__" args.length = false →
      exec (fuel+1) (.newInstance selfAddr args) c st = (.ok (some selfAddr), c, st))
    ∧ (hasMethod cd "__init__" args.length = true →
      ∀ vs (c1 : Closure) (st1 : St),
        execArgsWith (exec fuel) args c st = (.ok vs, c1, st1) →
        ∀ hres (st2 : St),
          callMethodWith (exec fuel) (some selfAddr) cd "__init__" vs st1 = (.ok hres, st2) →
          exec (fuel+1) (.newInstance selfAddr args) c st = (.ok (some selfAddr), c1, st2)) := by
  constructor
  · intro hno
    have key : exec (fuel+1) (.newInstance selfAddr args) c st
        = execStep fuel (exec fuel) (.newInstance selfAddr args) c st := rfl
    rw [key]
    simp only [execStep, hcell, hno]
    simp
  · intro hyes vs c1 st1 hargs hres st2 hcall
    have key : exec (fuel+1) (.newInstance selfAddr args) c st
        = execStep fuel (exec fuel) (.newInstance selfAddr args) c st := rfl
    rw [key]
    simp only [execStep, hcell, hyes, hargs, hcall]
    simp

/-- Claim C6 (counterexample): executing the same `NewInstance` node
twice — through two calls of a factory method — returns the same
instance handle both times and allocates nothing, refuting the claim
that a fresh ClassInstance is allocated per execution. -/
theorem newInstance_reexecution_shares_instance :
    exec 10 (.compound
      [.assignment "a" (.methodCall (.variableValue "f" []) "make" []),
       .assignment "b" (.methodCall (.variableValue "f" []) "make" [])])
      [("f", some 1)]
      ⟨[.inst (.mk "P" [] none) [],
        .inst (.mk "F" [.mk "make" [] (.methodBody (.ret (.newInstance 0 [])))] none) []], ""⟩
    = (.ok none,
        [("f", some 1), ("a", some 0), ("b", some 0)],
        ⟨[.inst (.mk "P" [] none) [],
          .inst (.mk "F" [.mk "make" [] (.methodBody (.ret (.newInstance 0 [])))] none) []], ""⟩) := by
  rfl

/-- Claim C2 (amended): `VariableValue` raises a runtime error when the
head name is absent from the scope; a dotted hop on a ClassInstance
reads the field from its map (an absent field fails), while a hop on a
non-instance value is silently skipped, keeping the current value. -/
theorem variableValue_behaviour (fuel : Nat) (name d : String) (dotted : List String)
    (c : Closure) (st : St) (h : ObjectHolder) :
    (lookupStr c name = none →
      exec (fuel+1) (.variableValue name dotted) c st =
        (.err "Failed to VariableValue::Execute!", c, st))
    ∧ (lookupStr c name = some h → getInst st.heap h = none →
      exec (fuel+1) (.variableValue name [d]) c st = (.ok h, c, st))
    ∧ (∀ a cd flds h2, lookupStr c name = some (some a) →
      st.heap[a]? = some (.inst cd flds) → lookupStr flds d = some h2 →
      exec (fuel+1) (.variableValue name [d]) c st = (.ok h2, c, st))
    ∧ (∀ a cd flds, lookupStr c name = some (some a) →
      st.heap[a]? = some (.inst cd flds) → lookupStr flds d = none →
      exec (fuel+1) (.variableValue name [d]) c st = (.err "out_of_range", c, st)) := by
  refine ⟨?_, ?_, ?_, ?_⟩
  · intro hnone
    have key : exec (fuel+1) (.variableValue name dotted) c st
        = execStep fuel (exec fuel) (.variableValue name dotted) c st := rfl
    rw [key]
    simp only [execStep, execVariableValue, hnone]
  · intro hsome hni
    have key : exec (fuel+1) (.variableValue name [d]) c st
        = execStep fuel (exec fuel) (.variableValue name [d]) c st := rfl
    rw [key]
    simp only [execStep, execVariableValue, hsome]
    cases h with
    | none => simp [execDotted]
    | some a =>
      simp only [getInst] at hni
      cases hg : st.heap[a]? with
      | none => simp [execDotted, hg]
      | some o =>
        rw [hg] at hni
        cases o with
        | num n => simp [execDotted, hg]
        | str s => simp [execDotted, hg]
        | bool b => simp [execDotted, hg]
        | cls cd => simp [execDotted, hg]
        | inst cd flds => simp at hni
  · intro a cd flds h2 hsome hg hf
    have key : exec (fuel+1) (.variableValue name [d]) c st
        = execStep fuel (exec fuel) (.variableValue name [d]) c st := rfl
    rw [key]
    simp only [execStep, execVariableValue, hsome]
    simp [execDotted, hg, hf]
  · intro a cd flds hsome hg hf
    have key : exec (fuel+1) (.variableValue name [d]) c st
        = execStep fuel (exec fuel) (.variableValue name [d]) c st := rfl
    rw [key]
    simp only [execStep, execVariableValue, hsome]
    simp [execDotted, hg, hf]

/-- Claim C3 (amended): a failure from the body that is not a `Return`
transfer does not escape `MethodBody` untouched — it is caught and
replaced by a runtime error with the fixed message
`MethodBody::Catched undefined object`. -/
theorem methodBody_rewraps_failures (fuel : Nat) (body : Stmt) (c c1 : Closure) (st st1 : St)
    (msg : String)
    (hb : exec fuel body c st = (.err msg, c1, st1)) :
    exec (fuel+1) (.methodBody body) c st =
      (.err "MethodBody::Catched undefined object", c1, st1) := by
  have key : exec (fuel+1) (.methodBody body) c st
      = execStep fuel (exec fuel) (.methodBody body) c st := rfl
  rw [key]
  simp only [execStep, hb]

/-- Claim C8 (amended): `Print` evaluates and prints its arguments left
to right, streaming — each argument after the first is evaluated only
after the previous argument text and a single separating space are
already on the sink — and finishes by appending one newline. -/
theorem print_streams_left_to_right (fuel : Nat) (a1 a2 : Stmt) (c c1 c2 : Closure)
    (st st1 st2 st3 st4 : St) (ad1 ad2 : Nat) (hr1 hr2 : ObjectHolder)
    (h1 : exec fuel a1 c st = (.ok (some ad1), c1, st1))
    (hp1 : printAddrWith (exec fuel) fuel ad1 st1 = (.ok hr1, st2))
    (h2 : exec fuel a2 c1 { st2 with out := st2.out ++ " " } = (.ok (some ad2), c2, st3))
    (hp2 : printAddrWith (exec fuel) fuel ad2 st3 = (.ok hr2, st4)) :
    exec (fuel+1) (.print [a1, a2]) c st =
      (.ok none, c2, { st4 with out := st4.out ++ "\n" }) := by
  have key : exec (fuel+1) (.print [a1, a2]) c st
      = execStep fuel (exec fuel) (.print [a1, a2]) c st := rfl
  rw [key]
  simp only [execStep, execPrintArgsWith, h1, hp1, h2, hp2]

/-- Claim C10 (amended): when the right-hand side of an `Assignment`
raises a runtime error, the node itself writes nothing — the scope is
exactly as the right-hand side evaluation left it, so a side-effect-free
right-hand side leaves the scope unchanged. -/
theorem assignment_no_write_on_rhs_error (fuel : Nat) (v : String) (rv : Stmt) (c c1 : Closure)
    (st st1 : St) (msg : String)
    (herr : exec fuel rv c st = (.err msg, c1, st1)) :
    exec (fuel+1) (.assignment v rv) c st = (.err msg, c1, st1) := by
  have key : exec (fuel+1) (.assignment v rv) c st
      = execStep fuel (exec fuel) (.assignment v rv) c st := rfl
  rw [key]
  simp only [execStep, herr]

/-- Claim C4 witness: 7 / 2 evaluates to the fresh Number 3. -/
theorem div_truncates_and_error_iff_witness :
    exec 1 (.const 0) [] ⟨[.num 7, .num 2], ""⟩ = (.ok (some 0), [], ⟨[.num 7, .num 2], ""⟩)
    ∧ exec 1 (.const 1) [] ⟨[.num 7, .num 2], ""⟩ = (.ok (some 1), [], ⟨[.num 7, .num 2], ""⟩)
    ∧ exec 2 (.div (.const 0) (.const 1)) [] ⟨[.num 7, .num 2], ""⟩ =
        (.ok (some 2), [], ⟨[.num 7, .num 2, .num 3], ""⟩) := by
  refine ⟨rfl, rfl, ?_⟩
  exact (div_truncates_and_error_iff 1 (.const 0) (.const 1) [] [] [] ⟨[.num 7, .num 2], ""⟩
    ⟨[.num 7, .num 2], ""⟩ ⟨[.num 7, .num 2], ""⟩ (some 0) (some 1) rfl rfl).1 7 2 rfl rfl
    (by decide)

/-- Claim C9 witness: `Div(Mult(7, 3), 3)` evaluates back to 7. -/
theorem mult_div_roundtrip_witness :
    (3 : Int) ≠ 0
    ∧ exec 3 (.div (.mult (.const 0) (.const 1)) (.const 1)) [] ⟨[.num 7, .num 3], ""⟩ =
        (.ok (some 3), [], ⟨[.num 7, .num 3, .num 21, .num 7], ""⟩) :=
  ⟨by decide, mult_div_roundtrip 7 3 (by decide)⟩

/-- Claim C5 witness: with a truthy left operand, `Or` ignores the right
operand and both connectives allocate a fresh Bool cell. -/
theorem or_and_short_circuit_fresh_bool_witness :
    exec 1 (.const 0) [] ⟨[.num 7], ""⟩ = (.ok (some 0), [], ⟨[.num 7], ""⟩)
    ∧ exec 2 (.or (.const 0) (.const 1)) [] ⟨[.num 7], ""⟩ =
        (.ok (some 1), [], ⟨[.num 7, .bool true], ""⟩)
    ∧ exec 2 (.and (.const 0) (.const 0)) [] ⟨[.num 7], ""⟩ =
        (.ok (some 1), [], ⟨[.num 7, .bool true], ""⟩) := by
  refine ⟨rfl, ?_, ?_⟩
  · exact ((or_and_short_circuit_fresh_bool 1 (.const 0) (.const 0) [] [] [] ⟨[.num 7], ""⟩ ⟨[.num 7], ""⟩
      ⟨[.num 7], ""⟩ (some 0) (some 0) rfl).1 (by decide)).1 (.const 1)
  · exact ((or_and_short_circuit_fresh_bool 1 (.const 0) (.const 0) [] [] [] ⟨[.num 7], ""⟩ ⟨[.num 7], ""⟩
      ⟨[.num 7], ""⟩ (some 0) (some 0) rfl).2.2.2 (by decide) rfl).1

/-- Claim C7 witness: a call on a Number yields the empty handle; a call
on an instance dispatches and returns the method result. -/
theorem methodCall_dispatch_or_none_witness :
    exec 1 (.const 0) [] ⟨[.num 7], ""⟩ = (.ok (some 0), [], ⟨[.num 7], ""⟩)
    ∧ exec 2 (.methodCall (.const 0) "m" [.const 0]) [] ⟨[.num 7], ""⟩ =
        (.ok none, [], ⟨[.num 7], ""⟩)
    ∧ exec 4 (.methodCall (.const 0) "getv" []) []
        ⟨[.inst (.mk "C" [.mk "getv" [] (.methodBody (.ret (.const 1)))] none) [], .num 9], ""⟩ =
        (.ok (some 1), [],
          ⟨[.inst (.mk "C" [.mk "getv" [] (.methodBody (.ret (.const 1)))] none) [], .num 9], ""⟩) := by
  refine ⟨rfl, ?_, ?_⟩
  · exact (methodCall_dispatch_or_none 1 (.const 0) "m" [] [] ⟨[.num 7], ""⟩ ⟨[.num 7], ""⟩
      (some 0) rfl).1 rfl [.const 0]
  · exact (methodCall_dispatch_or_none 3 (.const 0) "getv" [] []
      ⟨[.inst (.mk "C" [.mk "getv" [] (.methodBody (.ret (.const 1)))] none) [], .num 9], ""⟩
      ⟨[.inst (.mk "C" [.mk "getv" [] (.methodBody (.ret (.const 1)))] none) [], .num 9], ""⟩
      (some 0) rfl).2 (.mk "C" [.mk "getv" [] (.methodBody (.ret (.const 1)))] none) [] rfl
      [] [] []
      ⟨[.inst (.mk "C" [.mk "getv" [] (.methodBody (.ret (.const 1)))] none) [], .num 9], ""⟩ rfl

/-- Claim C6 witness: without `__init__` the instance is returned as is;
with a matching `__init__` the argument is evaluated and the field is
set on the node instance. -/
theorem newInstance_init_dispatch_witness :
    (⟨[.inst (.mk "P" [] none) []], ""⟩ : St).heap[0]? = some (.inst (.mk "P" [] none) [])
    ∧ exec 1 (.newInstance 0 []) [] ⟨[.inst (.mk "P" [] none) []], ""⟩ =
        (.ok (some 0), [], ⟨[.inst (.mk "P" [] none) []], ""⟩)
    ∧ exec 4 (.newInstance 0 [.const 1]) []
        ⟨[.inst (.mk "Q" [.mk "__init__" ["x"]
            (.methodBody (.fieldAssignment "self" [] "x" (.variableValue "x" [])))] none) [],
          .num 42], ""⟩ =
        (.ok (some 0), [],
          ⟨[.inst (.mk "Q" [.mk "__init__" ["x"]
              (.methodBody (.fieldAssignment "self" [] "x" (.variableValue "x" [])))] none)
              [("x", some 1)],
            .num 42], ""⟩) := by
  refine ⟨rfl, ?_, ?_⟩
  · exact (newInstance_init_dispatch 0 0 [] [] ⟨[.inst (.mk "P" [] none) []], ""⟩
      (.mk "P" [] none) [] rfl).1 (by decide)
  · exact (newInstance_init_dispatch 3 0 [.const 1] []
      ⟨[.inst (.mk "Q" [.mk "__init__" ["x"]
          (.methodBody (.fieldAssignment "self" [] "x" (.variableValue "x" [])))] none) [],
        .num 42], ""⟩
      (.mk "Q" [.mk "__init__" ["x"]
          (.methodBody (.fieldAssignment "self" [] "x" (.variableValue "x" [])))] none)
      [] rfl).2 (by decide) [some 1] []
      ⟨[.inst (.mk "Q" [.mk "__init__" ["x"]
          (.methodBody (.fieldAssignment "self" [] "x" (.variableValue "x" [])))] none) [],
        .num 42], ""⟩ rfl (some 1)
      ⟨[.inst (.mk "Q" [.mk "__init__" ["x"]
          (.methodBody (.fieldAssignment "self" [] "x" (.variableValue "x" [])))] none)
          [("x", some 1)],
        .num 42], ""⟩ rfl

/-- Claim C2 witness: an absent name raises the runtime error, and an
instance hop reads the field handle. -/
theorem variableValue_behaviour_witness :
    lookupStr ([("q", some 0)] : Closure) "zz" = none
    ∧ exec 1 (.variableValue "zz" []) [("q", some 0)] ⟨[.num 9], ""⟩ =
        (.err "Failed to VariableValue::Execute!", [("q", some 0)], ⟨[.num 9], ""⟩)
    ∧ exec 1 (.variableValue "p" ["f"]) [("p", some 0)]
        ⟨[.inst (.mk "P" [] none) [("f", some 1)], .num 9], ""⟩ =
        (.ok (some 1), [("p", some 0)], ⟨[.inst (.mk "P" [] none) [("f", some 1)], .num 9], ""⟩) := by
  refine ⟨rfl, ?_, ?_⟩
  · exact (variableValue_behaviour 0 "zz" "d" [] [("q", some 0)] ⟨[.num 9], ""⟩ none).1 rfl
  · exact (variableValue_behaviour 0 "p" "f" [] [("p", some 0)]
      ⟨[.inst (.mk "P" [] none) [("f", some 1)], .num 9], ""⟩ (some 0)).2.2.1 0
      (.mk "P" [] none) [("f", some 1)] (some 1) rfl rfl rfl

/-- Claim C3 witness: a zero division inside a method body surfaces with
the replaced message. -/
theorem methodBody_rewraps_failures_witness :
    exec 2 (.div (.const 0) (.const 1)) [] ⟨[.num 5, .num 0], ""⟩ =
      (.err "Сannot be divided by 0 ", [], ⟨[.num 5, .num 0], ""⟩)
    ∧ exec 3 (.methodBody (.div (.const 0) (.const 1))) [] ⟨[.num 5, .num 0], ""⟩ =
      (.err "MethodBody::Catched undefined object", [], ⟨[.num 5, .num 0], ""⟩) :=
  ⟨rfl, methodBody_rewraps_failures 2 (.div (.const 0) (.const 1)) [] [] ⟨[.num 5, .num 0], ""⟩
    ⟨[.num 5, .num 0], ""⟩ "Сannot be divided by 0 " rfl⟩

/-- Claim C8 witness: printing the Numbers 3 and 4 streams them and
writes `3 4` followed by a newline. -/
theorem print_streams_left_to_right_witness :
    exec 1 (.const 0) [] ⟨[.num 3, .num 4], ""⟩ = (.ok (some 0), [], ⟨[.num 3, .num 4], ""⟩)
    ∧ printAddrWith (exec 1) 1 0 ⟨[.num 3, .num 4], ""⟩ = (.ok none, ⟨[.num 3, .num 4], "3"⟩)
    ∧ exec 1 (.const 1) [] ⟨[.num 3, .num 4], "3 "⟩ = (.ok (some 1), [], ⟨[.num 3, .num 4], "3 "⟩)
    ∧ printAddrWith (exec 1) 1 1 ⟨[.num 3, .num 4], "3 "⟩ = (.ok none, ⟨[.num 3, .num 4], "3 4"⟩)
    ∧ exec 2 (.print [.const 0, .const 1]) [] ⟨[.num 3, .num 4], ""⟩ =
        (.ok none, [], ⟨[.num 3, .num 4], "3 4\n"⟩) := by
  refine ⟨rfl, rfl, rfl, rfl, ?_⟩
  exact print_streams_left_to_right 1 (.const 0) (.const 1) [] [] [] ⟨[.num 3, .num 4], ""⟩
    ⟨[.num 3, .num 4], ""⟩ ⟨[.num 3, .num 4], "3"⟩ ⟨[.num 3, .num 4], "3 "⟩
    ⟨[.num 3, .num 4], "3 4"⟩ 0 1 none none rfl rfl rfl rfl

/-- Claim C10 witness: a failing right-hand side with no scope side
effects leaves the empty scope empty. -/
theorem assignment_no_write_on_rhs_error_witness :
    exec 2 (.div (.const 0) (.const 1)) [] ⟨[.num 1, .num 0], ""⟩ =
      (.err "Сannot be divided by 0 ", [], ⟨[.num 1, .num 0], ""⟩)
    ∧ exec 3 (.assignment "x" (.div (.const 0) (.const 1))) [] ⟨[.num 1, .num 0], ""⟩ =
      (.err "Сannot be divided by 0 ", [], ⟨[.num 1, .num 0], ""⟩) :=
  ⟨rfl, assignment_no_write_on_rhs_error 2 "x" (.div (.const 0) (.const 1)) [] [] ⟨[.num 1, .num 0], ""⟩
    ⟨[.num 1, .num 0], ""⟩ "Сannot be divided by 0 " rfl⟩

end Mython
